import Mathlib

/-!
Verification of `cropro__play_remote_audio`, the one function of
`src/web/previewer.js` in Ajatt-Tools/cropro.

The function looks an element up by its identifier, reads its `paused`
attribute, and either calls `play()` on it (paused) or assigns `0` to its
`currentTime` (playing).  It is embedded as explicit state passing over a
`World`: the media elements of the page in tree order, together with the
history of host operations issued so far.

The host operations the function consumes (lookup by identifier, the `paused`
getter, `play()`, the `currentTime` setter) belong to the browser, not to this
repository; they are modelled from sections 3, 4.1 and 6 of the specification.
Where the specification's description of the host is silent, the host's own
rule is followed: `play()` on a clip whose playback has ended first takes the
position back to the start.  The clips modelled are played forwards and do not
loop.
An element reference is `none` for `null` and `some h` for the element at
position `h` of the page.  The page holds media elements only, as the lookup
of section 6 maps an identifier to a media-element handle.
-/

namespace Cropro

/-! ## Data model -/

/-- State of one media element: its `id` attribute, the two playback
attributes the function consults, and the length of its clip, which the host
consults when playback begins.  `currentTime` and `duration` are numbers of
seconds; the function never computes with them (it only stores the literal
`0`), so the rationals stand in for the host's numeric type. -/
structure MediaElement where
  id : String
  paused : Bool
  currentTime : ℚ
  duration : ℚ
  deriving DecidableEq

/-- Operations of the host that the function can issue, as recorded in the
call history.  The handle of an element is its position in the page. -/
inductive HostCall where
  | getElementById (element_id : String)
  | getPaused (handle : Nat)
  | play (handle : Nat)
  | setCurrentTime (handle : Nat) (value : ℚ)
  deriving DecidableEq

/-- Faults that abort an invocation.  `nullDereference` is the `TypeError` of
reading a property of, or calling a method on, `null`.  `danglingReference`
keeps the host primitives total on a handle that denotes no element of the
page; a handle just returned by the lookup never is one. -/
inductive Fault where
  | nullDereference
  | danglingReference
  deriving DecidableEq

/-- The page as the function sees it: its media elements in tree order, and
the history of host operations issued so far. -/
structure World where
  elements : List MediaElement
  calls : List HostCall
  deriving DecidableEq

/-- What an invocation leaves behind: the fault it raised, if any, and the
world at the point where it returned or faulted. -/
structure Outcome where
  fault : Option Fault
  world : World
  deriving DecidableEq

/-! ## Host primitives -/

/-- Position of the first element, in tree order, whose `id` is `element_id`. -/
def findIndexById (element_id : String) : List MediaElement → Option Nat
  | [] => none
  | e :: rest =>
    if e.id = element_id then some 0
    else (findIndexById element_id rest).map (· + 1)

/-- Modelled from the spec: the element lookup capability of section 6, the
host's `document.getElementById`.  It yields a reference to the first element
with the identifier, or `null` (here `none`) when there is none, and changes
no element. -/
def document.getElementById (element_id : String) (w : World) : Option Nat × World :=
  (findIndexById element_id w.elements,
    { w with calls := w.calls ++ [HostCall.getElementById element_id] })

/-- Modelled from the spec: the readable `paused` attribute of section 6.
Reading it through `null` faults; otherwise the element's flag is returned and
no element changes. -/
def HTMLMediaElement.paused (element : Option Nat) (w : World) :
    Except Fault Bool × World :=
  match element with
  | none => (Except.error Fault.nullDereference, w)
  | some h =>
    match w.elements[h]? with
    | none => (Except.error Fault.danglingReference, w)
    | some e => (Except.ok e.paused, { w with calls := w.calls ++ [HostCall.getPaused h] })

/-- Whether playback of the element has ended: its position is at the end of
its clip. -/
def MediaElement.endedPlayback (e : MediaElement) : Bool :=
  decide (e.duration ≤ e.currentTime)

/-- Modelled from the spec: what the begin-playback operation of section 6
does to the element it is invoked on.  The element is put in the playing
state.  The specification's description of the host does not say what happens
to the position; the host's rule is that an element whose playback has ended
is taken back to the start, and that otherwise the position stays. -/
def MediaElement.beginPlayback (e : MediaElement) : MediaElement :=
  { e with
    paused := false
    currentTime := if e.endedPlayback = true then 0 else e.currentTime }

/-- Modelled from the spec: the begin-playback operation of section 6, the
host's `play()`, invoked through an element reference.  Invoking it through
`null` faults; otherwise the referenced element begins playback. -/
def HTMLMediaElement.play (element : Option Nat) (w : World) : Outcome :=
  match element with
  | none => ⟨some Fault.nullDereference, w⟩
  | some h =>
    match w.elements[h]? with
    | none => ⟨some Fault.danglingReference, w⟩
    | some _ =>
      ⟨none,
        { elements := w.elements.modify MediaElement.beginPlayback h,
          calls := w.calls ++ [HostCall.play h] }⟩

/-- Modelled from the spec: the writable `currentTime` attribute of section 6.
The assignment stores the value as the element's position and leaves `paused`
alone. -/
def HTMLMediaElement.set_currentTime (element : Option Nat) (value : ℚ) (w : World) :
    Outcome :=
  match element with
  | none => ⟨some Fault.nullDereference, w⟩
  | some h =>
    match w.elements[h]? with
    | none => ⟨some Fault.danglingReference, w⟩
    | some _ =>
      ⟨none,
        { elements := w.elements.modify (fun e => { e with currentTime := value }) h,
          calls := w.calls ++ [HostCall.setCurrentTime h value] }⟩

/-! ## The function -/

/-- The function `cropro__play_remote_audio` of `src/web/previewer.js`. -/
def cropro__play_remote_audio (element_id : String) (w : World) : Outcome :=
  -- const element = document.getElementById(element_id);
  match document.getElementById element_id w with
  | (element, w1) =>
    -- if (element.paused) {
    match HTMLMediaElement.paused element w1 with
    | (Except.error f, w2) => ⟨some f, w2⟩
    --     element.play();
    | (Except.ok true, w2) => HTMLMediaElement.play element w2
    -- } else { element.currentTime = 0; }
    | (Except.ok false, w2) => HTMLMediaElement.set_currentTime element 0 w2

/-! ## Observations on the call history -/

/-- Number of `play()` invocations in a call history. -/
def playInvocations (calls : List HostCall) : Nat :=
  calls.countP (fun c => match c with
    | HostCall.play _ => true
    | _ => false)

/-- Number of lookups by identifier in a call history. -/
def lookupInvocations (calls : List HostCall) : Nat :=
  calls.countP (fun c => match c with
    | HostCall.getElementById _ => true
    | _ => false)

/-- Number of `currentTime` assignments in a call history. -/
def currentTimeWrites (calls : List HostCall) : Nat :=
  calls.countP (fun c => match c with
    | HostCall.setCurrentTime _ _ => true
    | _ => false)

/-- The host operations issued by one invocation: what the call history of
its outcome holds beyond the history it started from. -/
def issuedCalls (before : World) (after : Outcome) : List HostCall :=
  after.world.calls.drop before.calls.length

/-! ## Scenarios of section 8 -/

/-- Scenario A: "clip1" exists and is paused at 12.4 s of a clip of 30 s. -/
def scenarioA : World :=
  { elements := [⟨"clip1", true, 62 / 5, 30⟩], calls := [] }

/-- Scenario B: "clip1" exists and is playing at 12.4 s of a clip of 30 s. -/
def scenarioB : World :=
  { elements := [⟨"clip1", false, 62 / 5, 30⟩], calls := [] }

/-- A page with two clips of 30 s: "clip1" paused at 3 s, "clip2" playing at
7 s. -/
def twoClips : World :=
  { elements := [⟨"clip1", true, 3, 30⟩, ⟨"clip2", false, 7, 30⟩], calls := [] }

/-- A clip of 30 s that was played to its end: "clip1" is paused at 30 s. -/
def endedClip : World :=
  { elements := [⟨"clip1", true, 30, 30⟩], calls := [] }

/-- A page where a clip of 20 s that was played to its end, "outro", follows a
playing clip. -/
def endedOutro : World :=
  { elements := [⟨"intro", false, 4, 10⟩, ⟨"outro", true, 20, 20⟩], calls := [] }

/-! ## Lemmas on the lookup -/

/-- A resolved position holds an element, and that element has the identifier. -/
theorem findIndexById_getElem? (element_id : String) :
    ∀ (l : List MediaElement) (i : Nat), findIndexById element_id l = some i →
      ∃ e, l[i]? = some e ∧ e.id = element_id := by
  intro l
  induction l with
  | nil => intro i h; simp [findIndexById] at h
  | cons a rest ih =>
    intro i h
    unfold findIndexById at h
    by_cases ha : a.id = element_id
    · rw [if_pos ha] at h
      obtain rfl : 0 = i := by simpa using h
      exact ⟨a, by simp, ha⟩
    · rw [if_neg ha] at h
      cases hr : findIndexById element_id rest with
      | none => rw [hr] at h; simp at h
      | some j =>
        rw [hr] at h
        obtain rfl : j + 1 = i := by simpa using h
        obtain ⟨e, he, hid⟩ := ih j hr
        exact ⟨e, by simpa using he, hid⟩

/-- The lookup yields nothing exactly when no element has the identifier. -/
theorem findIndexById_eq_none (element_id : String) :
    ∀ (l : List MediaElement),
      findIndexById element_id l = none ↔ ∀ e ∈ l, e.id ≠ element_id := by
  intro l
  induction l with
  | nil => simp [findIndexById]
  | cons a rest ih =>
    unfold findIndexById
    by_cases ha : a.id = element_id
    · simp [ha]
    · simp [ha, ih]

/-- An update that keeps identifiers does not change what the lookup yields. -/
theorem findIndexById_modify (element_id : String) (f : MediaElement → MediaElement)
    (hf : ∀ e, (f e).id = e.id) :
    ∀ (l : List MediaElement) (n : Nat),
      findIndexById element_id (l.modify f n) = findIndexById element_id l := by
  intro l
  induction l with
  | nil => intro n; cases n <;> simp [List.modify, findIndexById]
  | cons a rest ih =>
    intro n
    cases n with
    | zero => simp [List.modify, List.modifyHead, findIndexById, hf]
    | succ m =>
      have h := ih m
      simp only [List.modify] at h ⊢
      simp [List.modifyTailIdx, findIndexById, h]

/-- Two different identifiers never resolve to the same element. -/
theorem findIndexById_ne {id1 id2 : String} (hne : id1 ≠ id2) {l : List MediaElement}
    {i j : Nat} (hi : findIndexById id1 l = some i) (hj : findIndexById id2 l = some j) :
    i ≠ j := by
  rintro rfl
  obtain ⟨e1, he1, h1⟩ := findIndexById_getElem? id1 l i hi
  obtain ⟨e2, he2, h2⟩ := findIndexById_getElem? id2 l i hj
  rw [he1] at he2
  obtain rfl : e1 = e2 := by simpa using he2
  exact hne (h1.symm.trans h2)

/-! ## The three paths of the function -/

/-- The path taken when the identifier matches no element. -/
theorem run_missing (element_id : String) (w : World)
    (h : findIndexById element_id w.elements = none) :
    cropro__play_remote_audio element_id w
      = ⟨some Fault.nullDereference,
          { w with calls := w.calls ++ [HostCall.getElementById element_id] }⟩ := by
  simp [cropro__play_remote_audio, document.getElementById, HTMLMediaElement.paused, h]

/-- The path taken when the resolved element is paused. -/
theorem run_paused (element_id : String) (w : World) (i : Nat) (e : MediaElement)
    (h : findIndexById element_id w.elements = some i) (he : w.elements[i]? = some e)
    (hp : e.paused = true) :
    cropro__play_remote_audio element_id w
      = ⟨none,
          { elements := w.elements.modify MediaElement.beginPlayback i,
            calls := w.calls ++ [HostCall.getElementById element_id, HostCall.getPaused i,
              HostCall.play i] }⟩ := by
  simp [cropro__play_remote_audio, document.getElementById, HTMLMediaElement.paused,
    HTMLMediaElement.play, h, he, hp]

/-- The path taken when the resolved element is playing. -/
theorem run_playing (element_id : String) (w : World) (i : Nat) (e : MediaElement)
    (h : findIndexById element_id w.elements = some i) (he : w.elements[i]? = some e)
    (hp : e.paused = false) :
    cropro__play_remote_audio element_id w
      = ⟨none,
          { elements := w.elements.modify (fun x => { x with currentTime := 0 }) i,
            calls := w.calls ++ [HostCall.getElementById element_id, HostCall.getPaused i,
              HostCall.setCurrentTime i 0] }⟩ := by
  simp [cropro__play_remote_audio, document.getElementById, HTMLMediaElement.paused,
    HTMLMediaElement.set_currentTime, h, he, hp]

/-! ## Lemmas on in-place updates of the page -/

theorem modify_comm {α : Type} (f g : α → α) {i j : Nat} (hij : i ≠ j) (l : List α) :
    (l.modify f i).modify g j = (l.modify g j).modify f i := by
  apply List.ext_getElem?
  intro n
  simp only [List.getElem?_modify]
  cases l[n]? with
  | none => simp
  | some a =>
    by_cases h1 : i = n
    · have h2 : j ≠ n := fun h => hij (h1.trans h.symm)
      simp [h1, h2]
    · by_cases h2 : j = n <;> simp [h1, h2]

theorem modify_congr {α : Type} (f g : α → α) (l : List α) (i : Nat) (e : α)
    (he : l[i]? = some e) (hfg : f e = g e) : l.modify f i = l.modify g i := by
  apply List.ext_getElem?
  intro n
  simp only [List.getElem?_modify]
  by_cases h1 : i = n
  · subst h1
    simp [he, hfg]
  · simp [h1]

theorem modify_idem {α : Type} (f : α → α) (hf : ∀ a, f (f a) = f a) (l : List α) (i : Nat) :
    (l.modify f i).modify f i = l.modify f i := by
  apply List.ext_getElem?
  intro n
  simp only [List.getElem?_modify]
  cases l[n]? with
  | none => simp
  | some a => by_cases h1 : i = n <;> simp [h1, hf]

/-- On an identifier bound to an element, an invocation completes without a
fault and rewrites exactly the resolved element: a paused element begins
playback, a playing one is rewound. -/
theorem run_bound (element_id : String) (w : World) (i : Nat)
    (h : findIndexById element_id w.elements = some i) :
    (cropro__play_remote_audio element_id w).fault = none ∧
    (cropro__play_remote_audio element_id w).world.elements
      = w.elements.modify
          (fun x => if x.paused = true then x.beginPlayback
            else { x with currentTime := 0 }) i := by
  obtain ⟨e, he, _⟩ := findIndexById_getElem? element_id w.elements i h
  cases hp : e.paused with
  | true =>
    rw [run_paused element_id w i e h he hp]
    exact ⟨rfl, modify_congr _ _ _ i e he (by simp [hp])⟩
  | false =>
    rw [run_playing element_id w i e h he hp]
    exact ⟨rfl, modify_congr _ _ _ i e he (by simp [hp])⟩

/-! ## Claims -/

/-- C1: for an identifier that resolves to a media element whose `paused`
attribute is true, the call completes, issues exactly the lookup, the read of
`paused` and one `play()` on that element (so `play()` is invoked exactly
once), and the element is in the playing state afterwards: it is the element
played, not paused, at the position the host's begin-playback gives it. -/
theorem play_once_on_paused (element_id : String) (w : World) (i : Nat) (e : MediaElement)
    (h : findIndexById element_id w.elements = some i) (he : w.elements[i]? = some e)
    (hp : e.paused = true) :
    (cropro__play_remote_audio element_id w).fault = none ∧
    issuedCalls w (cropro__play_remote_audio element_id w)
      = [HostCall.getElementById element_id, HostCall.getPaused i, HostCall.play i] ∧
    playInvocations (issuedCalls w (cropro__play_remote_audio element_id w)) = 1 ∧
    (issuedCalls w (cropro__play_remote_audio element_id w)).count (HostCall.play i) = 1 ∧
    (cropro__play_remote_audio element_id w).world.elements[i]?
      = some { id := e.id, paused := false,
               currentTime := if e.duration ≤ e.currentTime then 0 else e.currentTime,
               duration := e.duration } := by
  rw [run_paused element_id w i e h he hp]
  refine ⟨rfl, ?_, ?_, ?_, ?_⟩
  · simp [issuedCalls]
  · simp [issuedCalls, playInvocations]
  · simp [issuedCalls]
  · simp [List.getElem?_modify, he, MediaElement.beginPlayback, MediaElement.endedPlayback]

/-- Scenario A of the specification, for C1: "clip1" paused at 12.4 s. -/
theorem play_once_on_paused_witness :
    findIndexById "clip1" scenarioA.elements = some 0 ∧
    (cropro__play_remote_audio "clip1" scenarioA).fault = none ∧
    issuedCalls scenarioA (cropro__play_remote_audio "clip1" scenarioA)
      = [HostCall.getElementById "clip1", HostCall.getPaused 0, HostCall.play 0] ∧
    playInvocations (issuedCalls scenarioA (cropro__play_remote_audio "clip1" scenarioA)) = 1 ∧
    (issuedCalls scenarioA (cropro__play_remote_audio "clip1" scenarioA)).count
      (HostCall.play 0) = 1 ∧
    (cropro__play_remote_audio "clip1" scenarioA).world.elements[0]?
      = some ⟨"clip1", false, 62 / 5, 30⟩ := by
  have key := play_once_on_paused "clip1" scenarioA 0 ⟨"clip1", true, 62 / 5, 30⟩
    (by decide) rfl rfl
  refine ⟨by decide, key.1, key.2.1, key.2.2.1, key.2.2.2.1, ?_⟩
  rw [key.2.2.2.2]
  norm_num

/-- C2: for an identifier that resolves to a playing media element, whatever
its `currentTime`, the call completes and leaves the element with
`currentTime = 0` and still not paused. -/
theorem rewind_on_playing (element_id : String) (w : World) (i : Nat) (e : MediaElement)
    (h : findIndexById element_id w.elements = some i) (he : w.elements[i]? = some e)
    (hp : e.paused = false) :
    (cropro__play_remote_audio element_id w).fault = none ∧
    (cropro__play_remote_audio element_id w).world.elements[i]?
      = some { id := e.id, paused := false, currentTime := 0, duration := e.duration } := by
  rw [run_playing element_id w i e h he hp]
  refine ⟨rfl, ?_⟩
  simp [List.getElem?_modify, he, hp]

/-- Scenario B of the specification, for C2: "clip1" playing at 12.4 s. -/
theorem rewind_on_playing_witness :
    findIndexById "clip1" scenarioB.elements = some 0 ∧
    scenarioB.elements[0]? = some ⟨"clip1", false, 62 / 5, 30⟩ ∧
    (cropro__play_remote_audio "clip1" scenarioB).fault = none ∧
    (cropro__play_remote_audio "clip1" scenarioB).world.elements[0]?
      = some ⟨"clip1", false, 0, 30⟩ :=
  ⟨by decide, rfl,
    rewind_on_playing "clip1" scenarioB 0 ⟨"clip1", false, 62 / 5, 30⟩ (by decide) rfl rfl⟩

/-- C3: for an identifier that matches no element of the page, the call ends
in a fault handed to the caller, and every element is as it was before. -/
theorem fault_on_missing (element_id : String) (w : World)
    (h : ∀ e ∈ w.elements, e.id ≠ element_id) :
    (cropro__play_remote_audio element_id w).fault = some Fault.nullDereference ∧
    (cropro__play_remote_audio element_id w).world.elements = w.elements := by
  rw [run_missing element_id w ((findIndexById_eq_none element_id w.elements).2 h)]
  exact ⟨rfl, rfl⟩

/-- Scenario C of the specification, for C3: no element has id "missing". -/
theorem fault_on_missing_witness :
    (cropro__play_remote_audio "missing" scenarioB).fault = some Fault.nullDereference ∧
    (cropro__play_remote_audio "missing" scenarioB).world.elements = scenarioB.elements :=
  fault_on_missing "missing" scenarioB (by decide)

/-- C4: element-not-found is the only failure mode.  The call faults if and
only if the identifier matches no element of the page, the fault is then the
null dereference, and on an identifier bound to an element, paused or
playing, the call completes without a fault. -/
theorem fault_iff_missing (element_id : String) (w : World) :
    ((cropro__play_remote_audio element_id w).fault ≠ none
      ↔ ∀ e ∈ w.elements, e.id ≠ element_id) ∧
    (∀ f, (cropro__play_remote_audio element_id w).fault = some f
      → f = Fault.nullDereference) ∧
    (∀ i, findIndexById element_id w.elements = some i
      → (cropro__play_remote_audio element_id w).fault = none) := by
  cases hr : findIndexById element_id w.elements with
  | none =>
    have hm := (findIndexById_eq_none element_id w.elements).1 hr
    rw [run_missing element_id w hr]
    refine ⟨⟨fun _ => hm, fun _ => by simp⟩, ?_, ?_⟩
    · intro f hf
      simpa using hf.symm
    · intro i hi
      cases hi
  | some i =>
    have hb := (run_bound element_id w i hr).1
    have hnm : ¬ ∀ e ∈ w.elements, e.id ≠ element_id := by
      intro hall
      rw [(findIndexById_eq_none element_id w.elements).2 hall] at hr
      cases hr
    rw [hb]
    refine ⟨⟨fun hc => absurd rfl hc, fun hall => absurd hall hnm⟩, ?_, ?_⟩
    · intro f hf
      cases hf
    · intro _ _
      rfl

/-- C5: on an identifier bound to a playing media element, two invocations
in immediate succession both complete, both assign `currentTime := 0`, and the
page after the second is the page after the first, with the element at
`currentTime = 0` and not paused. -/
theorem rewind_twice_on_playing (element_id : String) (w : World) (i : Nat)
    (e : MediaElement) (h : findIndexById element_id w.elements = some i)
    (he : w.elements[i]? = some e) (hp : e.paused = false) :
    (cropro__play_remote_audio element_id w).fault = none ∧
    (cropro__play_remote_audio element_id
      (cropro__play_remote_audio element_id w).world).fault = none ∧
    issuedCalls w (cropro__play_remote_audio element_id w)
      = [HostCall.getElementById element_id, HostCall.getPaused i,
          HostCall.setCurrentTime i 0] ∧
    issuedCalls (cropro__play_remote_audio element_id w).world
        (cropro__play_remote_audio element_id (cropro__play_remote_audio element_id w).world)
      = [HostCall.getElementById element_id, HostCall.getPaused i,
          HostCall.setCurrentTime i 0] ∧
    (cropro__play_remote_audio element_id w).world.elements[i]?
      = some { id := e.id, paused := false, currentTime := 0, duration := e.duration } ∧
    (cropro__play_remote_audio element_id
      (cropro__play_remote_audio element_id w).world).world.elements
      = (cropro__play_remote_audio element_id w).world.elements := by
  have h1 := run_playing element_id w i e h he hp
  have hi1 : findIndexById element_id (cropro__play_remote_audio element_id w).world.elements
      = some i := by
    rw [h1]
    exact (findIndexById_modify element_id
      (fun x : MediaElement => { x with currentTime := 0 }) (fun _ => rfl) w.elements i).trans h
  have he1 : (cropro__play_remote_audio element_id w).world.elements[i]?
      = some { id := e.id, paused := false, currentTime := 0, duration := e.duration } := by
    rw [h1]
    simp [List.getElem?_modify, he, hp]
  have h2 := run_playing element_id (cropro__play_remote_audio element_id w).world i _
    hi1 he1 rfl
  refine ⟨by rw [h1], by rw [h2], ?_, ?_, he1, ?_⟩
  · rw [h1]; simp [issuedCalls]
  · rw [h2]; simp [issuedCalls]
  · rw [h2, h1]
    exact modify_idem (fun x : MediaElement => { x with currentTime := 0 }) (fun _ => rfl)
      w.elements i

/-- Scenario B run twice, for C5. -/
theorem rewind_twice_on_playing_witness :
    (cropro__play_remote_audio "clip1" scenarioB).world.elements[0]?
      = some ⟨"clip1", false, 0, 30⟩ ∧
    (cropro__play_remote_audio "clip1"
      (cropro__play_remote_audio "clip1" scenarioB).world).world.elements
      = (cropro__play_remote_audio "clip1" scenarioB).world.elements :=
  ⟨(rewind_twice_on_playing "clip1" scenarioB 0 ⟨"clip1", false, 62 / 5, 30⟩
      (by decide) rfl rfl).2.2.2.2.1,
    (rewind_twice_on_playing "clip1" scenarioB 0 ⟨"clip1", false, 62 / 5, 30⟩
      (by decide) rfl rfl).2.2.2.2.2⟩

/-- C6, as amended: on an identifier bound to a paused media element, the
call issues no assignment to `currentTime`; and when the element's position is
before the end of its clip, its `currentTime` afterwards is its `currentTime`
before, and the element is playing from there. -/
theorem position_kept_on_paused (element_id : String) (w : World) (i : Nat)
    (e : MediaElement) (h : findIndexById element_id w.elements = some i)
    (he : w.elements[i]? = some e) (hp : e.paused = true) :
    currentTimeWrites (issuedCalls w (cropro__play_remote_audio element_id w)) = 0 ∧
    (∀ v, HostCall.setCurrentTime i v
      ∉ issuedCalls w (cropro__play_remote_audio element_id w)) ∧
    (e.currentTime < e.duration →
      (cropro__play_remote_audio element_id w).world.elements[i]?
        = some { id := e.id, paused := false, currentTime := e.currentTime,
                 duration := e.duration }) := by
  rw [run_paused element_id w i e h he hp]
  refine ⟨?_, ?_, ?_⟩
  · simp [issuedCalls, currentTimeWrites]
  · intro v
    simp [issuedCalls]
  · intro hlt
    simp [List.getElem?_modify, he, MediaElement.beginPlayback, MediaElement.endedPlayback,
      not_le.mpr hlt]

/-- Scenario A of the specification, for C6: the position stays at 12.4 s. -/
theorem position_kept_on_paused_witness :
    currentTimeWrites (issuedCalls scenarioA (cropro__play_remote_audio "clip1" scenarioA)) = 0 ∧
    (cropro__play_remote_audio "clip1" scenarioA).world.elements[0]?
      = some ⟨"clip1", false, 62 / 5, 30⟩ :=
  ⟨(position_kept_on_paused "clip1" scenarioA 0 ⟨"clip1", true, 62 / 5, 30⟩
      (by decide) rfl rfl).1,
    (position_kept_on_paused "clip1" scenarioA 0 ⟨"clip1", true, 62 / 5, 30⟩
      (by decide) rfl rfl).2.2 (by norm_num)⟩

/-- C6 as first stated fails on a clip that was played to its end: "clip1" is
bound and paused at 30 s, the call issues no assignment to `currentTime`, and
yet the element's `currentTime` afterwards is 0, not 30, because the host's
begin-playback restarts an ended clip.  So it is not the case that every bound
paused element keeps its `currentTime` over the call. -/
theorem position_moved_on_ended :
    findIndexById "clip1" endedClip.elements = some 0 ∧
    endedClip.elements[0]? = some ⟨"clip1", true, 30, 30⟩ ∧
    currentTimeWrites (issuedCalls endedClip (cropro__play_remote_audio "clip1" endedClip)) = 0 ∧
    (cropro__play_remote_audio "clip1" endedClip).world.elements[0]?
      = some ⟨"clip1", false, 0, 30⟩ ∧
    ¬ (∀ (element_id : String) (w : World) (i : Nat) (e : MediaElement),
        findIndexById element_id w.elements = some i → w.elements[i]? = some e →
        e.paused = true →
        ∃ e1, (cropro__play_remote_audio element_id w).world.elements[i]? = some e1
          ∧ e1.currentTime = e.currentTime) := by
  have hrun := run_paused "clip1" endedClip 0 ⟨"clip1", true, 30, 30⟩ (by decide) rfl rfl
  have hafter : (cropro__play_remote_audio "clip1" endedClip).world.elements[0]?
      = some ⟨"clip1", false, 0, 30⟩ := by
    rw [hrun]
    simp [endedClip, List.modify, List.modifyHead, MediaElement.beginPlayback,
      MediaElement.endedPlayback]
  refine ⟨by decide, rfl, ?_, hafter, ?_⟩
  · rw [hrun]
    simp [issuedCalls, currentTimeWrites, endedClip]
  · intro hall
    obtain ⟨e1, he1, ht⟩ := hall "clip1" endedClip 0 ⟨"clip1", true, 30, 30⟩ (by decide) rfl rfl
    rw [hafter] at he1
    obtain rfl : (⟨"clip1", false, 0, 30⟩ : MediaElement) = e1 := by simpa using he1
    norm_num at ht

/-- C7: for every page and every identifier, the call changes at most the one
element the identifier resolves to.  The page keeps its length and the
identifiers of its elements in their order (no element is created or
destroyed), and every element at a position other than the resolved one,
which is every element when the identifier resolves to none, is as it was. -/
theorem frame_other_elements (element_id : String) (w : World) :
    (cropro__play_remote_audio element_id w).world.elements.length = w.elements.length ∧
    (cropro__play_remote_audio element_id w).world.elements.map MediaElement.id
      = w.elements.map MediaElement.id ∧
    (∀ j, findIndexById element_id w.elements ≠ some j →
      (cropro__play_remote_audio element_id w).world.elements[j]? = w.elements[j]?) := by
  cases hr : findIndexById element_id w.elements with
  | none =>
    rw [run_missing element_id w hr]
    exact ⟨rfl, rfl, fun _ _ => rfl⟩
  | some i =>
    rw [(run_bound element_id w i hr).2]
    refine ⟨by simp, ?_, ?_⟩
    · apply List.ext_getElem?
      intro n
      simp only [List.getElem?_map, List.getElem?_modify]
      cases w.elements[n]? with
      | none => rfl
      | some a =>
        by_cases h1 : i = n
        · by_cases h2 : a.paused = true <;> simp [h1, h2, MediaElement.beginPlayback]
        · simp [h1]
    · intro j hj
      have hij : i ≠ j := fun hc => hj (by rw [hc])
      simp [List.getElem?_modify, hij]

/-- On the page of two clips, a call on "clip1" leaves "clip2" as it was. -/
theorem frame_other_elements_witness :
    (cropro__play_remote_audio "clip1" twoClips).world.elements.length = 2 ∧
    (cropro__play_remote_audio "clip1" twoClips).world.elements[1]?
      = some ⟨"clip2", false, 7, 30⟩ :=
  ⟨(frame_other_elements "clip1" twoClips).1,
    (frame_other_elements "clip1" twoClips).2.2 1 (by decide)⟩

/-- C8: invocations on identifiers bound to two distinct media elements are
independent.  Calling on the first and then on the second, or on the second
and then on the first, completes without a fault either way and leaves the
same page. -/
theorem calls_on_distinct_elements_commute (id1 id2 : String) (w : World) (i j : Nat)
    (h1 : findIndexById id1 w.elements = some i)
    (h2 : findIndexById id2 w.elements = some j) (hij : i ≠ j) :
    (cropro__play_remote_audio id2 (cropro__play_remote_audio id1 w).world).fault = none ∧
    (cropro__play_remote_audio id1 (cropro__play_remote_audio id2 w).world).fault = none ∧
    (cropro__play_remote_audio id2 (cropro__play_remote_audio id1 w).world).world.elements
      = (cropro__play_remote_audio id1 (cropro__play_remote_audio id2 w).world).world.elements := by
  have hid : ∀ x : MediaElement,
      (if x.paused = true then x.beginPlayback
        else { x with currentTime := 0 } : MediaElement).id = x.id := by
    intro x
    split <;> rfl
  have a1 := (run_bound id1 w i h1).2
  have a2 := (run_bound id2 w j h2).2
  have h21 : findIndexById id2 (cropro__play_remote_audio id1 w).world.elements = some j := by
    rw [a1]
    exact (findIndexById_modify id2 _ hid w.elements i).trans h2
  have h12 : findIndexById id1 (cropro__play_remote_audio id2 w).world.elements = some i := by
    rw [a2]
    exact (findIndexById_modify id1 _ hid w.elements j).trans h1
  have b1 := run_bound id2 (cropro__play_remote_audio id1 w).world j h21
  have b2 := run_bound id1 (cropro__play_remote_audio id2 w).world i h12
  refine ⟨b1.1, b2.1, ?_⟩
  rw [b1.2, b2.2, a1, a2]
  exact modify_comm _ _ hij w.elements

/-- On the page of two clips, "clip1" then "clip2" and "clip2" then "clip1"
both leave "clip1" playing at 3 s and "clip2" playing at 0 s. -/
theorem calls_on_distinct_elements_commute_witness :
    (cropro__play_remote_audio "clip2" (cropro__play_remote_audio "clip1" twoClips).world).fault
      = none ∧
    (cropro__play_remote_audio "clip1" (cropro__play_remote_audio "clip2" twoClips).world).fault
      = none ∧
    (cropro__play_remote_audio "clip2"
        (cropro__play_remote_audio "clip1" twoClips).world).world.elements
      = (cropro__play_remote_audio "clip1"
        (cropro__play_remote_audio "clip2" twoClips).world).world.elements :=
  calls_on_distinct_elements_commute "clip1" "clip2" twoClips 0 1 (by decide) (by decide)
    (by decide)

/-- C9: on an identifier bound to a playing media element, the call issues
exactly three host operations: one lookup by identifier, one read of
`paused`, and the assignment `currentTime := 0`.  It invokes no `play()`, and
the `paused` attribute of every element is as it was. -/
theorem only_write_on_playing (element_id : String) (w : World) (i : Nat)
    (e : MediaElement) (h : findIndexById element_id w.elements = some i)
    (he : w.elements[i]? = some e) (hp : e.paused = false) :
    issuedCalls w (cropro__play_remote_audio element_id w)
      = [HostCall.getElementById element_id, HostCall.getPaused i,
          HostCall.setCurrentTime i 0] ∧
    lookupInvocations (issuedCalls w (cropro__play_remote_audio element_id w)) = 1 ∧
    playInvocations (issuedCalls w (cropro__play_remote_audio element_id w)) = 0 ∧
    currentTimeWrites (issuedCalls w (cropro__play_remote_audio element_id w)) = 1 ∧
    (cropro__play_remote_audio element_id w).world.elements.map MediaElement.paused
      = w.elements.map MediaElement.paused ∧
    (cropro__play_remote_audio element_id w).world.elements
      = w.elements.modify (fun x => { x with currentTime := 0 }) i := by
  rw [run_playing element_id w i e h he hp]
  refine ⟨?_, ?_, ?_, ?_, ?_, rfl⟩
  · simp [issuedCalls]
  · simp [issuedCalls, lookupInvocations]
  · simp [issuedCalls, playInvocations]
  · simp [issuedCalls, currentTimeWrites]
  · apply List.ext_getElem?
    intro n
    simp only [List.getElem?_map, List.getElem?_modify]
    cases w.elements[n]? with
    | none => rfl
    | some a => by_cases h1 : i = n <;> simp [h1]

/-- Scenario B of the specification, for C9: the three operations issued. -/
theorem only_write_on_playing_witness :
    issuedCalls scenarioB (cropro__play_remote_audio "clip1" scenarioB)
      = [HostCall.getElementById "clip1", HostCall.getPaused 0,
          HostCall.setCurrentTime 0 0] ∧
    playInvocations (issuedCalls scenarioB (cropro__play_remote_audio "clip1" scenarioB)) = 0 :=
  ⟨(only_write_on_playing "clip1" scenarioB 0 ⟨"clip1", false, 62 / 5, 30⟩
      (by decide) rfl rfl).1,
    (only_write_on_playing "clip1" scenarioB 0 ⟨"clip1", false, 62 / 5, 30⟩
      (by decide) rfl rfl).2.2.1⟩

/-- C10, as amended: the function never pauses.  On an identifier bound to a
media element the call completes and the element is not paused afterwards.
When the element was paused at a position `t` before the end of its clip, one
call leaves it playing at `t`, a second call in immediate succession leaves it
playing at `0`, and the page after two calls differs from the page after one
whenever `t` is not `0`. -/
theorem never_pauses (element_id : String) (w : World) (i : Nat) (e : MediaElement)
    (h : findIndexById element_id w.elements = some i) (he : w.elements[i]? = some e) :
    (cropro__play_remote_audio element_id w).fault = none ∧
    (∃ e1, (cropro__play_remote_audio element_id w).world.elements[i]? = some e1
      ∧ e1.paused = false) ∧
    (e.paused = true → e.currentTime < e.duration →
      (cropro__play_remote_audio element_id w).world.elements[i]?
        = some { id := e.id, paused := false, currentTime := e.currentTime,
                 duration := e.duration } ∧
      (cropro__play_remote_audio element_id
        (cropro__play_remote_audio element_id w).world).fault = none ∧
      (cropro__play_remote_audio element_id
        (cropro__play_remote_audio element_id w).world).world.elements[i]?
        = some { id := e.id, paused := false, currentTime := 0, duration := e.duration } ∧
      (e.currentTime ≠ 0 →
        (cropro__play_remote_audio element_id
          (cropro__play_remote_audio element_id w).world).world.elements
          ≠ (cropro__play_remote_audio element_id w).world.elements)) := by
  refine ⟨(run_bound element_id w i h).1, ?_, ?_⟩
  · rw [(run_bound element_id w i h).2]
    cases hp : e.paused with
    | true =>
      exact ⟨e.beginPlayback, by simp [List.getElem?_modify, he, hp], rfl⟩
    | false =>
      exact ⟨{ e with currentTime := 0 }, by simp [List.getElem?_modify, he, hp], hp⟩
  · intro hp hlt
    have r1 := run_paused element_id w i e h he hp
    have hi1 : findIndexById element_id (cropro__play_remote_audio element_id w).world.elements
        = some i := by
      rw [r1]
      exact (findIndexById_modify element_id MediaElement.beginPlayback (fun _ => rfl)
        w.elements i).trans h
    have he1 : (cropro__play_remote_audio element_id w).world.elements[i]?
        = some { id := e.id, paused := false, currentTime := e.currentTime,
                 duration := e.duration } := by
      rw [r1]
      simp [List.getElem?_modify, he, MediaElement.beginPlayback, MediaElement.endedPlayback,
        not_le.mpr hlt]
    have r2 := run_playing element_id (cropro__play_remote_audio element_id w).world i _
      hi1 he1 rfl
    have he2 : (cropro__play_remote_audio element_id
        (cropro__play_remote_audio element_id w).world).world.elements[i]?
        = some { id := e.id, paused := false, currentTime := 0, duration := e.duration } := by
      rw [r2]
      simp [List.getElem?_modify, he1]
    refine ⟨he1, by rw [r2], he2, ?_⟩
    intro ht hc
    rw [hc, he1] at he2
    have hq : e.currentTime = 0 := by simpa using he2
    exact ht hq

/-- Scenario A run twice, for C10: playing at 12.4 s after one call, at 0 s
after two. -/
theorem never_pauses_witness :
    (cropro__play_remote_audio "clip1" scenarioA).world.elements[0]?
      = some ⟨"clip1", false, 62 / 5, 30⟩ ∧
    (cropro__play_remote_audio "clip1"
      (cropro__play_remote_audio "clip1" scenarioA).world).world.elements[0]?
      = some ⟨"clip1", false, 0, 30⟩ ∧
    (cropro__play_remote_audio "clip1"
      (cropro__play_remote_audio "clip1" scenarioA).world).world.elements
      ≠ (cropro__play_remote_audio "clip1" scenarioA).world.elements :=
  ⟨((never_pauses "clip1" scenarioA 0 ⟨"clip1", true, 62 / 5, 30⟩ (by decide) rfl).2.2 rfl
      (by norm_num)).1,
    ((never_pauses "clip1" scenarioA 0 ⟨"clip1", true, 62 / 5, 30⟩ (by decide) rfl).2.2 rfl
      (by norm_num)).2.2.1,
    ((never_pauses "clip1" scenarioA 0 ⟨"clip1", true, 62 / 5, 30⟩ (by decide) rfl).2.2 rfl
      (by norm_num)).2.2.2 (by norm_num)⟩

/-- C10 as first stated fails on a clip that was played to its end: "outro" is
bound and paused at 20 s, which is not 0, yet one call already leaves it
playing at 0 s, because the host's begin-playback restarts an ended clip, and
the page after a second call is the page after the first. -/
theorem second_call_same_on_ended :
    findIndexById "outro" endedOutro.elements = some 1 ∧
    endedOutro.elements[1]? = some ⟨"outro", true, 20, 20⟩ ∧
    (20 : ℚ) ≠ 0 ∧
    (cropro__play_remote_audio "outro" endedOutro).world.elements[1]?
      = some ⟨"outro", false, 0, 20⟩ ∧
    (cropro__play_remote_audio "outro"
      (cropro__play_remote_audio "outro" endedOutro).world).world.elements
      = (cropro__play_remote_audio "outro" endedOutro).world.elements := by
  have r1 := run_paused "outro" endedOutro 1 ⟨"outro", true, 20, 20⟩ (by decide) rfl rfl
  have hel : (cropro__play_remote_audio "outro" endedOutro).world.elements
      = [⟨"intro", false, 4, 10⟩, ⟨"outro", false, 0, 20⟩] := by
    rw [r1]
    simp [endedOutro, List.modify, List.modifyTailIdx, List.modifyHead,
      MediaElement.beginPlayback, MediaElement.endedPlayback]
  have hi1 : findIndexById "outro" (cropro__play_remote_audio "outro" endedOutro).world.elements
      = some 1 := by
    rw [hel]
    decide
  have he1 : (cropro__play_remote_audio "outro" endedOutro).world.elements[1]?
      = some ⟨"outro", false, 0, 20⟩ := by
    rw [hel]
    rfl
  have r2 := run_playing "outro" (cropro__play_remote_audio "outro" endedOutro).world 1 _
    hi1 he1 rfl
  refine ⟨by decide, rfl, by norm_num, he1, ?_⟩
  rw [r2, hel]
  simp [List.modify, List.modifyTailIdx, List.modifyHead]

end Cropro
